import Mathlib

/-!
# Verification of `gedcom-photos` (`src/main.py`)

A shallow embedding of the program in `src/main.py`: a GEDCOM scanner that
derives a per-person identifier from a name line and a birth-date line and
downloads each referenced photo to `./photos/<identifier>_<NN>.jpg`.

Strings are modelled by Lean `String` (a list of characters, matching Python's
code-point strings for the ASCII inputs at issue).  Effects (prints, download
calls) are modelled as an explicit trace; the network and the disk are an
abstract oracle, since the code discards `download_photo`'s result.
-/

namespace GedcomPhotos

/-- Python `str` whitespace (the ASCII range), as stripped by `str.strip()`
and split on by `str.split()`. -/
def isPyWS (c : Char) : Bool :=
  c = ' ' || c = '\t' || c = '\n' || c = '\r' || c = '\x0B' || c = '\x0C'

/-- Python `str.strip()`: remove leading and trailing whitespace. -/
def pyStrip (s : String) : String :=
  ⟨((s.data.dropWhile isPyWS).reverse.dropWhile isPyWS).reverse⟩

/-- Worker for `str.split()` with no argument: `acc` holds the reversed
characters of the word currently being read. -/
def wordsAux : List Char → List Char → List String
  | acc, [] => if acc = [] then [] else [⟨acc.reverse⟩]
  | acc, c :: cs =>
    if isPyWS c then
      (if acc = [] then [] else [⟨acc.reverse⟩]) ++ wordsAux [] cs
    else wordsAux (c :: acc) cs

/-- Python `str.split()` with no argument: split on whitespace runs,
producing no empty parts. -/
def pySplit (s : String) : List String := wordsAux [] s.data

/-- Python `str.lower()` (ASCII letters; every relevant input is ASCII). -/
def pyLower (s : String) : String := ⟨s.data.map Char.toLower⟩

/-- Python `int(...)` applied to a run of decimal digits. -/
def natOfDigits (l : List Char) : Nat :=
  l.foldl (fun n c => 10 * n + (c.toNat - 48)) 0

/-- Python `f"{n:02d}"` for a nonnegative integer `n`. -/
def format02d (n : Nat) : String :=
  if n < 10 then "0" ++ toString n else toString n

/-- A character kept by `re.sub(r'[^a-z0-9_]', '', ...)`. -/
def isIdChar (c : Char) : Bool :=
  ('a' ≤ c && c ≤ 'z') || ('0' ≤ c && c ≤ '9') || c = '_'

/-- `re.sub(r'[^a-z0-9_]', '', s)`: delete every character outside
`[a-z0-9_]` (pure deletion, no substitution). -/
def sanitize (s : String) : String := ⟨s.data.filter isIdChar⟩

/-- Python `pre.data.isPrefixOf s.data`, i.e. `s.startswith(pre)`. -/
def strStartsWith (s pre : String) : Bool := pre.data.isPrefixOf s.data

/-- Worker for Python's substring test `pat in s`. -/
def containsAux (pat : List Char) : List Char → Bool
  | [] => pat.isEmpty
  | c :: cs => pat.isPrefixOf (c :: cs) || containsAux pat cs

/-- Python `pat in s`: substring containment. -/
def strContains (s pat : String) : Bool := containsAux pat.data s.data

/-- The lazy group `(.*?)` that precedes the final `/` of the pattern
`1 NAME (.*?) /(.*?)/`: the characters up to the first `/`, none of which may
be a newline (`.` does not match newlines). -/
def findSlash : List Char → Option (List Char)
  | [] => none
  | c :: cs =>
    if c = '/' then some []
    else if c = '\n' then none
    else (findSlash cs).map (fun g => c :: g)

/-- Attempt to match ` /(.*?)/` at the current position: the next two
characters must be `' '` and `'/'`, after which `findSlash` reads the second
group. -/
def tryNameHere (c : Char) (cs : List Char) : Option (List Char) :=
  if c = ' ' then
    match cs with
    | c2 :: rest => if c2 = '/' then findSlash rest else none
    | [] => none
  else none

/-- Backtracking match of `(.*?) /(.*?)/`: the first lazy group grows one
character at a time (never across a newline) until ` /(.*?)/` matches at its
end. -/
def nameGroupsAux : List Char → Option (List Char × List Char)
  | [] => none
  | c :: cs =>
    match tryNameHere c cs with
    | some g2 => some ([], g2)
    | none =>
      if c = '\n' then none
      else (nameGroupsAux cs).map (fun p => (c :: p.1, p.2))

/-- `re.match(r'1 NAME (.*?) /(.*?)/', name)`: anchored at the start of the
string; yields the two captured groups. -/
def nameMatch (name : String) : Option (String × String) :=
  if strStartsWith name "1 NAME " then
    match nameGroupsAux (name.data.drop 7) with
    | some p => some (⟨p.1⟩, ⟨p.2⟩)
    | none => none
  else none

/-- A character matched by `\w` (ASCII range). -/
def isWordChar (c : Char) : Bool := c.isAlphanum || c = '_'

/-- `re.match(r'2 DATE (\d+) (\w+) (\d+)', birth_date)`.  A character given
back when backtracking out of `\d+` or `\w+` can never match the literal
space that follows, so the match is: maximal digit run, a space, maximal
word-character run, a space, maximal digit run (the end of the string is not
anchored). -/
def dateMatch (birth_date : String) : Option (String × String × String) :=
  if strStartsWith birth_date "2 DATE " then
    let rest := birth_date.data.drop 7
    let dRun := rest.takeWhile Char.isDigit
    if dRun = [] then none else
    match rest.dropWhile Char.isDigit with
    | c1 :: r2 =>
      if c1 = ' ' then
        let mRun := r2.takeWhile isWordChar
        if mRun = [] then none else
        match r2.dropWhile isWordChar with
        | c2 :: r4 =>
          if c2 = ' ' then
            let yRun := r4.takeWhile Char.isDigit
            if yRun = [] then none else some (⟨dRun⟩, ⟨mRun⟩, ⟨yRun⟩)
          else none
        | [] => none
      else none
    | [] => none
  else none

/-- `datetime.strptime(month, '%b').month`: a case-insensitive lookup of the
three-letter English month abbreviation; the whole string must be consumed,
and an unrecognised abbreviation raises `ValueError`, modelled as `none`. -/
def strptimeMonth (month : String) : Option Nat :=
  match pyLower month with
  | "jan" => some 1
  | "feb" => some 2
  | "mar" => some 3
  | "apr" => some 4
  | "may" => some 5
  | "jun" => some 6
  | "jul" => some 7
  | "aug" => some 8
  | "sep" => some 9
  | "oct" => some 10
  | "nov" => some 11
  | "dec" => some 12
  | _ => none

/-- `create_person_id(name, birth_date)` from `src/main.py`: `None` becomes
`none`.  The function is total (the only exception the Python can raise, the
`ValueError` from `strptime`, is caught and turned into `None`). -/
def create_person_id (name birth_date : String) : Option String :=
  match nameMatch name with
  | none => none
  | some g =>
    let given_name := pyStrip g.1
    let surname := pyStrip g.2
    match dateMatch birth_date with
    | none => none
    | some dmy =>
      let day := natOfDigits dmy.1.data
      match strptimeMonth dmy.2.1 with
      | none => none
      | some month_num =>
        let date_part := dmy.2.2 ++ "-" ++ format02d month_num ++ "-" ++ format02d day
        let name_parts := (pySplit given_name).map pyStrip ++ [surname]
        let name_part := sanitize (pyLower (String.intercalate "_" name_parts))
        some (date_part ++ "_" ++ name_part)

/-- Outcome of one attempted fetch-and-write for a given URL and filename:
either the whole `requests.get` / `raise_for_status` / chunked write
succeeds, or some step raises an exception carrying message `msg`. -/
inductive FetchOutcome where
  | ok
  | error (msg : String)
deriving DecidableEq

/-- The network-and-disk oracle consulted by a download. -/
def Net := String → String → FetchOutcome

/-- `download_photo(url, filename)`: returns the success flag and the lines
it prints (the broad `except` catches every failure and logs it). -/
def download_photo (net : Net) (url filename : String) : Bool × List String :=
  match net url filename with
  | .ok => (true, [])
  | .error e => (false, ["Error downloading " ++ url ++ ": " ++ e])

/-- The scan-local mutable state of `process_gedcom_file`. -/
structure ScanState where
  current_person : Option String
  current_name : Option String
  current_birth_date : Option String
  photo_count : Nat
deriving DecidableEq

/-- The state at the start of the scan. -/
def initState : ScanState := ⟨none, none, none, 0⟩

/-- Observable effects of the scan, in program order. -/
inductive Eff where
  | mkdir (dir : String)
  | print (msg : String)
  | download (url : String) (filename : String)
deriving DecidableEq

/-- The fixed output directory `./photos`. -/
def photosDir : String := "./photos"

/-- Is this (stripped) line a new-person boundary:
`line.startswith('0 @I') and ' INDI' in line`. -/
def isBoundary (line : String) : Bool :=
  strStartsWith line "0 @I" && strContains line " INDI"

/-- One iteration of the scan loop: strip the raw line, then dispatch on the
four recognised prefixes exactly as the `if`/`continue` chain does.  The
result of `download_photo` is discarded by the caller, so the download is
recorded as an effect. -/
def processLine (st : ScanState) (rawLine : String) : ScanState × List Eff :=
  let line := pyStrip rawLine
  if isBoundary line then
    (⟨some line, none, none, 0⟩, [])
  else if strStartsWith line "1 NAME " then
    (⟨st.current_person, some line, st.current_birth_date, st.photo_count⟩, [])
  else if strStartsWith line "2 DATE " then
    (⟨st.current_person, st.current_name, some line, st.photo_count⟩, [])
  else if strStartsWith line "2 FILE " then
    match st.current_name, st.current_birth_date with
    | some nm, some bd =>
      match create_person_id nm bd with
      | some person_id =>
        let url : String := ⟨line.data.drop 7⟩
        let photo_count := st.photo_count + 1
        let filename := photosDir ++ "/" ++ person_id ++ "_" ++ format02d photo_count ++ ".jpg"
        (⟨st.current_person, st.current_name, st.current_birth_date, photo_count⟩,
         [.print ("Downloading " ++ url ++ " to " ++ filename), .download url filename])
      | none => (st, [])
    | _, _ => (st, [])
  else (st, [])

/-- The scan loop over the remaining lines. -/
def scanLines (st : ScanState) : List String → ScanState × List Eff
  | [] => (st, [])
  | l :: ls =>
    let r := processLine st l
    let rest := scanLines r.1 ls
    (rest.1, r.2 ++ rest.2)

/-- `process_gedcom_file`, with the file contents given as its list of raw
lines; the idempotent directory creation is the first effect. -/
def process_gedcom_file (lines : List String) : ScanState × List Eff :=
  let r := scanLines initState lines
  (r.1, Eff.mkdir photosDir :: r.2)

/-- Interpret the effect trace against the oracle: prints pass through, and
each download call contributes the lines `download_photo` prints.  The
Boolean result of `download_photo` is discarded, exactly as at the call
site. -/
def runEffs (net : Net) : List Eff → List String
  | [] => []
  | .mkdir _ :: es => runEffs net es
  | .print m :: es => m :: runEffs net es
  | .download u f :: es => (download_photo net u f).2 ++ runEffs net es

/-- The download attempts (URL, target filename) recorded in a trace. -/
def downloadsOf : List Eff → List (String × String)
  | [] => []
  | .download u f :: es => (u, f) :: downloadsOf es
  | .mkdir _ :: es => downloadsOf es
  | .print _ :: es => downloadsOf es

/-- The facts about the input path that `validate_file` consults:
`os.path.exists` and `os.access(..., os.R_OK)`. -/
structure FileSystem where
  pathExists : Bool
  pathReadable : Bool

/-- `validate_file(file_path)`: the flag it returns and the lines it
prints. -/
def validate_file (fs : FileSystem) (file_path : String) : Bool × List String :=
  if !fs.pathExists then
    (false, ["Error: File '" ++ file_path ++ "' does not exist."])
  else if !fs.pathReadable then
    (false, ["Error: File '" ++ file_path ++ "' is not readable."])
  else (true, [])

/-- `main()` after argument parsing: the exit code passed to `sys.exit`, the
validation messages, and the scan's effect trace.  When validation fails the
function returns 1 at once: the file is never opened and no line is
parsed, so the trace is empty. -/
def main (fs : FileSystem) (file_path : String) (lines : List String) :
    Nat × List String × List Eff :=
  let v := validate_file fs file_path
  if v.1 then (0, v.2, (process_gedcom_file lines).2)
  else (1, v.2, [])

/-! ## Basic string and list lemmas -/

theorem mk_data (s : String) : (⟨s.data⟩ : String) = s := rfl

theorem dropWhile_eq_self_of_all_not (p : Char → Bool) (l : List Char)
    (h : ∀ c ∈ l, p c = false) : l.dropWhile p = l := by
  cases l with
  | nil => rfl
  | cons a as => simp [List.dropWhile_cons, h a (by simp)]

theorem takeWhile_eq_self_of_all (p : Char → Bool) (l : List Char)
    (h : ∀ c ∈ l, p c = true) : l.takeWhile p = l := by
  induction l with
  | nil => rfl
  | cons a as ih =>
    rw [List.takeWhile_cons, if_pos (h a (by simp)), ih (fun c hc => h c (by simp [hc]))]

theorem takeWhile_append_not (p : Char → Bool) (l : List Char) (x : Char) (r : List Char)
    (hl : ∀ c ∈ l, p c = true) (hx : p x = false) :
    (l ++ x :: r).takeWhile p = l := by
  induction l with
  | nil => simp [List.takeWhile_cons, hx]
  | cons a as ih =>
    rw [List.cons_append, List.takeWhile_cons, if_pos (hl a (by simp)),
        ih (fun c hc => hl c (by simp [hc]))]

theorem dropWhile_append_not (p : Char → Bool) (l : List Char) (x : Char) (r : List Char)
    (hl : ∀ c ∈ l, p c = true) (hx : p x = false) :
    (l ++ x :: r).dropWhile p = x :: r := by
  induction l with
  | nil => simp [List.dropWhile_cons, hx]
  | cons a as ih =>
    rw [List.cons_append, List.dropWhile_cons, if_pos (hl a (by simp)),
        ih (fun c hc => hl c (by simp [hc]))]

theorem map_id_of_eq {α : Type} (f : α → α) (l : List α) (h : ∀ x ∈ l, f x = x) :
    l.map f = l := by
  induction l with
  | nil => rfl
  | cons a as ih =>
    simp [h a (by simp)]
    exact ih (fun x hx => h x (by simp [hx]))

/-- A string with a nonempty middle factor is nonempty. -/
theorem append_mid_ne_empty (a b c : String) (hb : b.data ≠ []) : a ++ b ++ c ≠ "" := by
  intro h
  have h2 := congrArg String.data h
  rw [String.data_append, String.data_append] at h2
  have h3 : (("" : String).data) = [] := rfl
  rw [h3, List.append_eq_nil, List.append_eq_nil] at h2
  exact hb h2.1.2

/-! ## Lemmas about `pyStrip` and `pySplit` -/

theorem pyStrip_eq_self (s : String) (h : ∀ c ∈ s.data, isPyWS c = false) :
    pyStrip s = s := by
  unfold pyStrip
  rw [dropWhile_eq_self_of_all_not _ _ h,
      dropWhile_eq_self_of_all_not _ _ (fun c hc => h c (List.mem_reverse.mp hc)),
      List.reverse_reverse]

theorem wordsAux_no_ws (cs : List Char) : ∀ acc : List Char,
    (∀ c ∈ acc, isPyWS c = false) →
    ∀ w ∈ wordsAux acc cs, ∀ ch ∈ w.data, isPyWS ch = false := by
  induction cs with
  | nil =>
    intro acc hacc w hw ch hch
    by_cases hne : acc = []
    · simp [wordsAux, hne] at hw
    · simp [wordsAux, hne] at hw
      subst hw
      exact hacc ch (List.mem_reverse.mp hch)
  | cons c cs ih =>
    intro acc hacc w hw ch hch
    by_cases hws : isPyWS c = true
    · simp [wordsAux, hws] at hw
      rcases hw with hw | hw
      · by_cases hne : acc = []
        · simp [hne] at hw
        · simp [hne] at hw
          subst hw
          exact hacc ch (List.mem_reverse.mp hch)
      · exact ih [] (by simp) w hw ch hch
    · simp [wordsAux, hws] at hw
      refine ih (c :: acc) ?_ w hw ch hch
      intro x hx
      rcases List.mem_cons.mp hx with hx | hx
      · subst hx; exact Bool.not_eq_true _ ▸ (by simpa using hws)
      · exact hacc x hx

theorem pySplit_no_ws (s : String) (w : String) (hw : w ∈ pySplit s) :
    ∀ ch ∈ w.data, isPyWS ch = false :=
  wordsAux_no_ws s.data [] (by simp) w hw

theorem pySplit_map_pyStrip (s : String) : (pySplit s).map pyStrip = pySplit s :=
  map_id_of_eq _ _ (fun w hw => pyStrip_eq_self w (pySplit_no_ws s w hw))

/-! ## The name regex on well-formed input -/

theorem findSlash_append (l r : List Char)
    (h : ∀ c ∈ l, c ≠ '/' ∧ c ≠ '\n') :
    findSlash (l ++ '/' :: r) = some l := by
  induction l with
  | nil => simp [findSlash]
  | cons a as ih =>
    have ha := h a (by simp)
    rw [List.cons_append]
    simp only [findSlash, if_neg ha.1, if_neg ha.2,
      ih (fun c hc => h c (by simp [hc])), Option.map_some']

theorem nameGroupsAux_append (g s : List Char)
    (hg : ∀ c ∈ g, c ≠ '/' ∧ c ≠ '\n')
    (hs : ∀ c ∈ s, c ≠ '/' ∧ c ≠ '\n') :
    nameGroupsAux (g ++ ' ' :: '/' :: (s ++ ['/'])) = some (g, s) := by
  induction g with
  | nil =>
    rw [List.nil_append]
    simp [nameGroupsAux, tryNameHere, findSlash_append s [] hs]
  | cons a as ih =>
    have ha := hg a (by simp)
    have hih := ih (fun c hc => hg c (by simp [hc]))
    have h1 : tryNameHere a (as ++ ' ' :: '/' :: (s ++ ['/'])) = none := by
      unfold tryNameHere
      by_cases hsp : a = ' '
      · rw [if_pos hsp]
        cases as with
        | nil => simp
        | cons b bs =>
          have hb := hg b (by simp)
          simp [hb.1]
      · rw [if_neg hsp]
    rw [List.cons_append]
    simp only [nameGroupsAux, h1, if_neg ha.2, hih, Option.map_some']

theorem nameMatch_append (given surname : String)
    (hg : ∀ c ∈ given.data, c ≠ '/' ∧ c ≠ '\n')
    (hs : ∀ c ∈ surname.data, c ≠ '/' ∧ c ≠ '\n') :
    nameMatch ("1 NAME " ++ given ++ " /" ++ surname ++ "/") = some (given, surname) := by
  have hdata : ("1 NAME " ++ given ++ " /" ++ surname ++ "/").data
      = "1 NAME ".data ++ (given.data ++ ' ' :: '/' :: (surname.data ++ ['/'])) := by
    simp only [String.data_append, List.append_assoc]
    rfl
  have hpre : strStartsWith ("1 NAME " ++ given ++ " /" ++ surname ++ "/") "1 NAME " = true := by
    unfold strStartsWith
    rw [hdata, List.isPrefixOf_iff_prefix]
    exact ⟨_, rfl⟩
  have hdrop : ("1 NAME " ++ given ++ " /" ++ surname ++ "/").data.drop 7
      = given.data ++ ' ' :: '/' :: (surname.data ++ ['/']) := by
    rw [hdata]
    have h7 : ("1 NAME ").data.length = 7 := rfl
    rw [← h7, List.drop_left]
  unfold nameMatch
  rw [if_pos hpre, hdrop, nameGroupsAux_append given.data surname.data hg hs]

/-! ## The date regex on well-formed input -/

theorem dateMatch_append (d mon y : String)
    (hd : d.data ≠ []) (hd2 : ∀ c ∈ d.data, c.isDigit = true)
    (hm : mon.data ≠ []) (hm2 : ∀ c ∈ mon.data, isWordChar c = true)
    (hy : y.data ≠ []) (hy2 : ∀ c ∈ y.data, c.isDigit = true) :
    dateMatch ("2 DATE " ++ d ++ " " ++ mon ++ " " ++ y) = some (d, mon, y) := by
  have hdata : ("2 DATE " ++ d ++ " " ++ mon ++ " " ++ y).data
      = "2 DATE ".data ++ (d.data ++ ' ' :: (mon.data ++ ' ' :: y.data)) := by
    simp only [String.data_append, List.append_assoc]
    rfl
  have hpre : strStartsWith ("2 DATE " ++ d ++ " " ++ mon ++ " " ++ y) "2 DATE " = true := by
    unfold strStartsWith
    rw [hdata, List.isPrefixOf_iff_prefix]
    exact ⟨_, rfl⟩
  have hdrop : ("2 DATE " ++ d ++ " " ++ mon ++ " " ++ y).data.drop 7
      = d.data ++ ' ' :: (mon.data ++ ' ' :: y.data) := by
    rw [hdata]
    have h7 : ("2 DATE ").data.length = 7 := rfl
    rw [← h7, List.drop_left]
  unfold dateMatch
  rw [if_pos hpre]
  simp only [hdrop]
  rw [takeWhile_append_not Char.isDigit d.data ' ' _ hd2 (by decide),
      dropWhile_append_not Char.isDigit d.data ' ' _ hd2 (by decide)]
  rw [if_neg hd]
  simp only [if_pos rfl, if_true]
  rw [takeWhile_append_not isWordChar mon.data ' ' _ hm2 (by decide),
      dropWhile_append_not isWordChar mon.data ' ' _ hm2 (by decide)]
  rw [if_neg hm]
  simp only [if_pos rfl, if_true]
  rw [takeWhile_eq_self_of_all Char.isDigit y.data hy2]
  rw [if_neg hy]

/-! ## Characterisation of `create_person_id` on well-formed input -/

theorem create_person_id_eq (given surname d mon y : String) (m : Nat)
    (hg : ∀ c ∈ given.data, c ≠ '/' ∧ c ≠ '\n')
    (hs : ∀ c ∈ surname.data, c ≠ '/' ∧ c ≠ '\n')
    (hd : d.data ≠ []) (hd2 : ∀ c ∈ d.data, c.isDigit = true)
    (hm : mon.data ≠ []) (hm2 : ∀ c ∈ mon.data, isWordChar c = true)
    (hy : y.data ≠ []) (hy2 : ∀ c ∈ y.data, c.isDigit = true)
    (hmon : strptimeMonth mon = some m) :
    create_person_id ("1 NAME " ++ given ++ " /" ++ surname ++ "/")
        ("2 DATE " ++ d ++ " " ++ mon ++ " " ++ y)
      = some (y ++ "-" ++ format02d m ++ "-" ++ format02d (natOfDigits d.data) ++ "_"
              ++ sanitize (pyLower (String.intercalate "_"
                   ((pySplit (pyStrip given)).map pyStrip ++ [pyStrip surname])))) := by
  unfold create_person_id
  rw [nameMatch_append given surname hg hs,
      dateMatch_append d mon y hd hd2 hm hm2 hy hy2]
  simp only [hmon]

/-! ## Line-shape discrimination -/

/-- Two prefixes of the same string are comparable, so a line that starts
with `p` cannot also start with an incomparable `q`. -/
theorem not_startsWith_of_startsWith {l : String} (p q : String)
    (h : strStartsWith l p = true)
    (h1 : ¬ (q.data <+: p.data)) (h2 : ¬ (p.data <+: q.data)) :
    strStartsWith l q = false := by
  unfold strStartsWith at h ⊢
  rw [List.isPrefixOf_iff_prefix] at h
  by_contra hq
  rw [Bool.not_eq_false, List.isPrefixOf_iff_prefix] at hq
  rcases List.prefix_or_prefix_of_prefix hq h with hc | hc
  · exact h1 hc
  · exact h2 hc

theorem not_boundary_of_startsWith {l : String} (p : String)
    (h : strStartsWith l p = true)
    (h1 : ¬ (("0 @I").data <+: p.data)) (h2 : ¬ (p.data <+: ("0 @I").data)) :
    isBoundary l = false := by
  unfold isBoundary
  rw [not_startsWith_of_startsWith p "0 @I" h h1 h2, Bool.false_and]

theorem name_line_disc {l : String} (h : strStartsWith l "1 NAME " = true) :
    isBoundary l = false :=
  not_boundary_of_startsWith "1 NAME " h (by decide) (by decide)

theorem date_line_disc {l : String} (h : strStartsWith l "2 DATE " = true) :
    isBoundary l = false ∧ strStartsWith l "1 NAME " = false :=
  ⟨not_boundary_of_startsWith "2 DATE " h (by decide) (by decide),
   not_startsWith_of_startsWith "2 DATE " "1 NAME " h (by decide) (by decide)⟩

theorem file_line_disc {l : String} (h : strStartsWith l "2 FILE " = true) :
    isBoundary l = false ∧ strStartsWith l "1 NAME " = false ∧
      strStartsWith l "2 DATE " = false :=
  ⟨not_boundary_of_startsWith "2 FILE " h (by decide) (by decide),
   not_startsWith_of_startsWith "2 FILE " "1 NAME " h (by decide) (by decide),
   not_startsWith_of_startsWith "2 FILE " "2 DATE " h (by decide) (by decide)⟩

/-! ## Evaluation lemmas for `processLine` -/

theorem processLine_boundary (st : ScanState) (line : String)
    (h : isBoundary (pyStrip line) = true) :
    processLine st line = (⟨some (pyStrip line), none, none, 0⟩, []) := by
  unfold processLine
  simp only [h, if_true]

theorem processLine_name (st : ScanState) (line : String)
    (h : strStartsWith (pyStrip line) "1 NAME " = true) :
    processLine st line
      = (⟨st.current_person, some (pyStrip line), st.current_birth_date,
          st.photo_count⟩, []) := by
  unfold processLine
  simp only [name_line_disc h, h, if_true, if_false, Bool.false_eq_true]

theorem processLine_date (st : ScanState) (line : String)
    (h : strStartsWith (pyStrip line) "2 DATE " = true) :
    processLine st line
      = (⟨st.current_person, st.current_name, some (pyStrip line),
          st.photo_count⟩, []) := by
  unfold processLine
  obtain ⟨d1, d2⟩ := date_line_disc h
  simp only [d1, d2, h, if_true, if_false, Bool.false_eq_true]

theorem processLine_file_success (st : ScanState) (line : String)
    (nm bd pid : String)
    (h : strStartsWith (pyStrip line) "2 FILE " = true)
    (hn : st.current_name = some nm) (hb : st.current_birth_date = some bd)
    (hid : create_person_id nm bd = some pid) :
    processLine st line
      = (⟨st.current_person, st.current_name, st.current_birth_date,
          st.photo_count + 1⟩,
         [.print ("Downloading " ++ (⟨(pyStrip line).data.drop 7⟩ : String) ++ " to "
            ++ (photosDir ++ "/" ++ pid ++ "_" ++ format02d (st.photo_count + 1) ++ ".jpg")),
          .download (⟨(pyStrip line).data.drop 7⟩ : String)
            (photosDir ++ "/" ++ pid ++ "_" ++ format02d (st.photo_count + 1) ++ ".jpg")]) := by
  unfold processLine
  obtain ⟨d1, d2, d3⟩ := file_line_disc h
  simp only [d1, d2, d3, h, if_true, if_false, Bool.false_eq_true, hn, hb, hid]

theorem processLine_file_missing (st : ScanState) (line : String)
    (h : strStartsWith (pyStrip line) "2 FILE " = true)
    (hmiss : st.current_name = none ∨ st.current_birth_date = none) :
    processLine st line = (st, []) := by
  obtain ⟨p, n, b, c⟩ := st
  unfold processLine
  obtain ⟨d1, d2, d3⟩ := file_line_disc h
  simp only [d1, d2, d3, h, if_true, if_false, Bool.false_eq_true]
  rcases hmiss with hm | hm
  · change n = none at hm
    subst hm
    cases b <;> rfl
  · change b = none at hm
    subst hm
    cases n <;> rfl

theorem processLine_file_noid (st : ScanState) (line : String) (nm bd : String)
    (h : strStartsWith (pyStrip line) "2 FILE " = true)
    (hn : st.current_name = some nm) (hb : st.current_birth_date = some bd)
    (hid : create_person_id nm bd = none) :
    processLine st line = (st, []) := by
  unfold processLine
  obtain ⟨d1, d2, d3⟩ := file_line_disc h
  simp only [d1, d2, d3, h, if_true, if_false, Bool.false_eq_true, hn, hb, hid]

/-! ## The scan loop -/

theorem scanLines_cons (st : ScanState) (l : String) (ls : List String) :
    scanLines st (l :: ls)
      = ((scanLines (processLine st l).1 ls).1,
         (processLine st l).2 ++ (scanLines (processLine st l).1 ls).2) := rfl

theorem scanLines_append (st : ScanState) (l1 l2 : List String) :
    scanLines st (l1 ++ l2)
      = ((scanLines (scanLines st l1).1 l2).1,
         (scanLines st l1).2 ++ (scanLines (scanLines st l1).1 l2).2) := by
  induction l1 generalizing st with
  | nil => simp [scanLines]
  | cons l ls ih => simp [scanLines, ih, List.append_assoc]

theorem runEffs_append (net : Net) (e1 e2 : List Eff) :
    runEffs net (e1 ++ e2) = runEffs net e1 ++ runEffs net e2 := by
  induction e1 with
  | nil => simp [runEffs]
  | cons e es ih => cases e <;> simp [runEffs, ih]

theorem downloadsOf_append (e1 e2 : List Eff) :
    downloadsOf (e1 ++ e2) = downloadsOf e1 ++ downloadsOf e2 := by
  induction e1 with
  | nil => simp [downloadsOf]
  | cons e es ih => cases e <;> simp [downloadsOf, ih]

/-- Any identifier `create_person_id` actually returns is non-empty (it
always contains the `_` that separates date part and name part). -/
theorem create_person_id_some_ne (n d : String) :
    ∀ s, create_person_id n d = some s → s ≠ "" := by
  unfold create_person_id
  cases nameMatch n with
  | none => intro s h; simp at h
  | some g =>
    cases dateMatch d with
    | none => intro s h; simp at h
    | some dmy =>
      intro s h
      cases hsm : strptimeMonth dmy.2.1 with
      | none => simp [hsm] at h
      | some m =>
        simp only [hsm, Option.some.injEq] at h
        rw [← h]
        exact append_mid_ne_empty _ "_" _ (by decide)

/-! ## Claims -/

/-- C1: for every name line `1 NAME <given> /<surname>/` (segments free of
`/` and newlines, with no surrounding whitespace) and every date line
`2 DATE <d> <mon> <yyyy>` whose three-letter month abbreviation is
recognised, `create_person_id` returns `yyyy-mm-dd_given_surname`: the date
part with the month (and day) zero-padded, an underscore, then the
given-name parts in order and the surname lowercased and joined by
underscores with every character outside `[a-z0-9_]` deleted; the result is
deterministic for repeated calls with the same inputs. -/
theorem claim_C1_identifier_format (given surname d mon y : String) (m : Nat)
    (hg : ∀ c ∈ given.data, c ≠ '/' ∧ c ≠ '\n')
    (hs : ∀ c ∈ surname.data, c ≠ '/' ∧ c ≠ '\n')
    (hgs : pyStrip given = given) (hss : pyStrip surname = surname)
    (hd : d.data ≠ []) (hd2 : ∀ c ∈ d.data, c.isDigit = true)
    (hm : mon.data ≠ []) (hm2 : ∀ c ∈ mon.data, isWordChar c = true)
    (hy : y.data ≠ []) (hy2 : ∀ c ∈ y.data, c.isDigit = true)
    (hmon : strptimeMonth mon = some m) :
    create_person_id ("1 NAME " ++ given ++ " /" ++ surname ++ "/")
        ("2 DATE " ++ d ++ " " ++ mon ++ " " ++ y)
      = some (y ++ "-" ++ format02d m ++ "-" ++ format02d (natOfDigits d.data) ++ "_"
              ++ sanitize (pyLower (String.intercalate "_" (pySplit given ++ [surname]))))
    ∧ ∀ n b : String, create_person_id n b = create_person_id n b := by
  refine ⟨?_, fun n b => rfl⟩
  rw [create_person_id_eq given surname d mon y m hg hs hd hd2 hm hm2 hy hy2 hmon,
      hgs, hss, pySplit_map_pyStrip]

/-- Witness for C1: the spec's concrete scenario `1 NAME John /Smith/`,
`2 DATE 15 Jan 1980` yields `1980-01-15_john_smith`. -/
theorem claim_C1_witness :
    create_person_id "1 NAME John /Smith/" "2 DATE 15 Jan 1980"
      = some "1980-01-15_john_smith" := by
  have h := (claim_C1_identifier_format "John" "Smith" "15" "Jan" "1980" 1
    (by decide) (by decide) (by decide) (by decide) (by decide) (by decide)
    (by decide) (by decide) (by decide) (by decide) (by decide)).1
  have e1 : ("1 NAME " ++ "John" ++ " /" ++ "Smith" ++ "/" : String)
      = "1 NAME John /Smith/" := by decide
  have e2 : ("2 DATE " ++ "15" ++ " " ++ "Jan" ++ " " ++ "1980" : String)
      = "2 DATE 15 Jan 1980" := by decide
  have e3 : ("1980" ++ "-" ++ format02d 1 ++ "-" ++ format02d (natOfDigits ("15").data)
        ++ "_" ++ sanitize (pyLower (String.intercalate "_" (pySplit "John" ++ ["Smith"])))
        : String)
      = "1980-01-15_john_smith" := by decide
  rw [e1, e2, e3] at h
  exact h

/-- C2: `create_person_id` is total on strings: it returns either a
non-empty identifier or `none` (Python `None`, never an exception); it
returns `none` whenever the name line fails the name pattern, whenever the
date line fails the date pattern, and whenever the month abbreviation does
not resolve to a month number. -/
theorem claim_C2_total_or_none (n d : String) :
    (create_person_id n d = none ∨ ∃ s, create_person_id n d = some s ∧ s ≠ "")
    ∧ (nameMatch n = none → create_person_id n d = none)
    ∧ (dateMatch d = none → create_person_id n d = none)
    ∧ (∀ dS mS yS, dateMatch d = some (dS, mS, yS) → strptimeMonth mS = none →
        create_person_id n d = none) := by
  refine ⟨?_, ?_, ?_, ?_⟩
  · cases hopt : create_person_id n d with
    | none => exact Or.inl rfl
    | some s => exact Or.inr ⟨s, rfl, create_person_id_some_ne n d s hopt⟩
  · intro h
    unfold create_person_id
    rw [h]
  · intro h
    unfold create_person_id
    cases hn : nameMatch n with
    | none => rfl
    | some g => rw [h]
  · intro dS mS yS hdm hsm
    unfold create_person_id
    cases hn : nameMatch n with
    | none => rfl
    | some g =>
      rw [hdm]
      simp only [hsm]

/-- Witness for C2: a malformed name line, a malformed date line, and an
unrecognised month abbreviation each yield `none`. -/
theorem claim_C2_witness :
    create_person_id "bogus" "2 DATE 15 Jan 1980" = none
    ∧ create_person_id "1 NAME John /Smith/" "nodate" = none
    ∧ create_person_id "1 NAME John /Smith/" "2 DATE 15 Foo 1980" = none :=
  ⟨(claim_C2_total_or_none "bogus" "2 DATE 15 Jan 1980").2.1 (by decide),
   (claim_C2_total_or_none "1 NAME John /Smith/" "nodate").2.2.1 (by decide),
   (claim_C2_total_or_none "1 NAME John /Smith/" "2 DATE 15 Foo 1980").2.2.2
     "15" "Foo" "1980" (by decide) (by decide)⟩

/-- C3: the photo sequence number restarts (to 0, so the next photo is 1) at
every person-boundary line and increments per successful photo line; the Nth
photo for a person targets `./photos/<identifier>_<NN>.jpg` with the
sequence zero-padded to two digits; concretely, a second `2 FILE` line in
the same record targets `./photos/1980-01-15_john_smith_02.jpg`. -/
theorem claim_C3_photo_numbering :
    (∀ (st : ScanState) (line : String), isBoundary (pyStrip line) = true →
        processLine st line = (⟨some (pyStrip line), none, none, 0⟩, []))
    ∧ (∀ (st : ScanState) (line nm bd pid : String),
        strStartsWith (pyStrip line) "2 FILE " = true →
        st.current_name = some nm → st.current_birth_date = some bd →
        create_person_id nm bd = some pid →
        (processLine st line).1.photo_count = st.photo_count + 1 ∧
        downloadsOf (processLine st line).2
          = [((⟨(pyStrip line).data.drop 7⟩ : String),
              photosDir ++ "/" ++ pid ++ "_" ++ format02d (st.photo_count + 1) ++ ".jpg")])
    ∧ downloadsOf (process_gedcom_file
        ["0 @I1@ INDI", "1 NAME John /Smith/", "2 DATE 15 Jan 1980",
         "2 FILE http://example.com/a.jpg", "2 FILE http://example.com/b.jpg"]).2
      = [("http://example.com/a.jpg", "./photos/1980-01-15_john_smith_01.jpg"),
         ("http://example.com/b.jpg", "./photos/1980-01-15_john_smith_02.jpg")] := by
  refine ⟨fun st line h => processLine_boundary st line h, ?_, by decide⟩
  intro st line nm bd pid h hn hb hid
  rw [processLine_file_success st line nm bd pid h hn hb hid]
  exact ⟨rfl, rfl⟩

/-- Witness for C3: a boundary line resets the context, and a photo line in
a two-field context downloads with sequence number 1. -/
theorem claim_C3_witness :
    processLine initState "0 @I1@ INDI"
      = (⟨some (pyStrip "0 @I1@ INDI"), none, none, 0⟩, [])
    ∧ ((processLine (⟨none, some "1 NAME John /Smith/", some "2 DATE 15 Jan 1980", 0⟩ : ScanState)
          "2 FILE http://example.com/a.jpg").1.photo_count = 0 + 1
       ∧ downloadsOf (processLine
             (⟨none, some "1 NAME John /Smith/", some "2 DATE 15 Jan 1980", 0⟩ : ScanState)
             "2 FILE http://example.com/a.jpg").2
          = [((⟨(pyStrip "2 FILE http://example.com/a.jpg").data.drop 7⟩ : String),
              photosDir ++ "/" ++ "1980-01-15_john_smith" ++ "_" ++ format02d (0 + 1) ++ ".jpg")]) :=
  ⟨claim_C3_photo_numbering.1 initState "0 @I1@ INDI" (by decide),
   claim_C3_photo_numbering.2.1
     (⟨none, some "1 NAME John /Smith/", some "2 DATE 15 Jan 1980", 0⟩ : ScanState)
     "2 FILE http://example.com/a.jpg" "1 NAME John /Smith/" "2 DATE 15 Jan 1980"
     "1980-01-15_john_smith" (by decide) rfl rfl (by decide)⟩

/-- C4: a `2 FILE` line processed while the current name line or the current
birth-date line is absent is silently skipped: the state is unchanged and no
effect (no print, no download) is produced. -/
theorem claim_C4_skip_without_name_or_date (st : ScanState) (line : String)
    (h : strStartsWith (pyStrip line) "2 FILE " = true)
    (hmiss : st.current_name = none ∨ st.current_birth_date = none) :
    processLine st line = (st, []) :=
  processLine_file_missing st line h hmiss

/-- Witness for C4: a photo line at the initial state (no name, no date)
does nothing. -/
theorem claim_C4_witness :
    processLine initState "2 FILE http://example.com/a.jpg" = (initState, []) :=
  claim_C4_skip_without_name_or_date initState "2 FILE http://example.com/a.jpg"
    (by decide) (Or.inl rfl)

/-- C5: when the fetch or write for a download fails, `download_photo`
returns failure together with a log line naming the URL and the error; the
scan is a homomorphic fold, so a failure never prevents later lines (and
later downloads) from being processed, as the concrete failing scenario
shows. -/
theorem claim_C5_download_failure_logged :
    (∀ (net : Net) (url filename e : String), net url filename = .error e →
        download_photo net url filename
          = (false, ["Error downloading " ++ url ++ ": " ++ e]))
    ∧ (∀ (net : Net) (e1 e2 : List Eff),
        runEffs net (e1 ++ e2) = runEffs net e1 ++ runEffs net e2)
    ∧ (∀ (st : ScanState) (l1 l2 : List String),
        scanLines st (l1 ++ l2)
          = ((scanLines (scanLines st l1).1 l2).1,
             (scanLines st l1).2 ++ (scanLines (scanLines st l1).1 l2).2))
    ∧ runEffs (fun u _ => if u = "http://example.com/a.jpg" then .error "HTTPError" else .ok)
        (process_gedcom_file
          ["0 @I1@ INDI", "1 NAME John /Smith/", "2 DATE 15 Jan 1980",
           "2 FILE http://example.com/a.jpg", "2 FILE http://example.com/b.jpg"]).2
      = ["Downloading http://example.com/a.jpg to ./photos/1980-01-15_john_smith_01.jpg",
         "Error downloading http://example.com/a.jpg: HTTPError",
         "Downloading http://example.com/b.jpg to ./photos/1980-01-15_john_smith_02.jpg"] := by
  refine ⟨?_, runEffs_append, scanLines_append, by decide⟩
  intro net url filename e h
  unfold download_photo
  rw [h]

/-- Witness for C5: a network that always fails produces the failure result
and the log line naming URL and error. -/
theorem claim_C5_witness :
    download_photo (fun _ _ => FetchOutcome.error "boom")
        "http://example.com/a.jpg" "./photos/x.jpg"
      = (false, ["Error downloading http://example.com/a.jpg: boom"]) := by
  have h := (claim_C5_download_failure_logged).1 (fun _ _ => FetchOutcome.error "boom")
    "http://example.com/a.jpg" "./photos/x.jpg" "boom" rfl
  have e : ("Error downloading " ++ "http://example.com/a.jpg" ++ ": " ++ "boom" : String)
      = "Error downloading http://example.com/a.jpg: boom" := by decide
  rw [e] at h
  exact h

/-- C6: within one record, a later `1 NAME ` or `2 DATE ` line overwrites
the stored value (last write wins); a subsequent photo line derives its
identifier from the newly stored name; and appending a name line to an input
adds no effect, so already-emitted downloads are unaffected. -/
theorem claim_C6_last_write_wins :
    (∀ (st : ScanState) (line : String), strStartsWith (pyStrip line) "1 NAME " = true →
        processLine st line
          = (⟨st.current_person, some (pyStrip line), st.current_birth_date,
              st.photo_count⟩, []))
    ∧ (∀ (st : ScanState) (line : String), strStartsWith (pyStrip line) "2 DATE " = true →
        processLine st line
          = (⟨st.current_person, st.current_name, some (pyStrip line),
              st.photo_count⟩, []))
    ∧ (∀ (st : ScanState) (nl fl bd pid : String),
        strStartsWith (pyStrip nl) "1 NAME " = true →
        strStartsWith (pyStrip fl) "2 FILE " = true →
        st.current_birth_date = some bd →
        create_person_id (pyStrip nl) bd = some pid →
        downloadsOf (scanLines st [nl, fl]).2
          = [((⟨(pyStrip fl).data.drop 7⟩ : String),
              photosDir ++ "/" ++ pid ++ "_" ++ format02d (st.photo_count + 1) ++ ".jpg")])
    ∧ (∀ (st : ScanState) (ls : List String) (l : String),
        strStartsWith (pyStrip l) "1 NAME " = true →
        (scanLines st (ls ++ [l])).2 = (scanLines st ls).2) := by
  refine ⟨processLine_name, processLine_date, ?_, ?_⟩
  · intro st nl fl bd pid h1 h2 hb hid
    rw [scanLines_cons, processLine_name st nl h1, scanLines_cons,
        processLine_file_success
          (⟨st.current_person, some (pyStrip nl), st.current_birth_date, st.photo_count⟩
            : ScanState)
          fl (pyStrip nl) bd pid h2 rfl hb hid]
    simp [scanLines, downloadsOf]
  · intro st ls l h
    rw [scanLines_append, scanLines_cons, processLine_name _ l h]
    simp [scanLines]

/-- Witness for C6: a name line overwrites the stored name, and the
following photo line uses the new name for its identifier. -/
theorem claim_C6_witness :
    processLine (⟨none, some "1 NAME Old /Name/", some "2 DATE 15 Jan 1980", 0⟩ : ScanState)
        "1 NAME John /Smith/"
      = (⟨none, some (pyStrip "1 NAME John /Smith/"), some "2 DATE 15 Jan 1980", 0⟩, [])
    ∧ downloadsOf (scanLines
        (⟨none, some "1 NAME Old /Name/", some "2 DATE 15 Jan 1980", 0⟩ : ScanState)
        ["1 NAME John /Smith/", "2 FILE http://example.com/a.jpg"]).2
      = [((⟨(pyStrip "2 FILE http://example.com/a.jpg").data.drop 7⟩ : String),
          photosDir ++ "/" ++ "1980-01-15_john_smith" ++ "_" ++ format02d (0 + 1) ++ ".jpg")] :=
  ⟨claim_C6_last_write_wins.1
     (⟨none, some "1 NAME Old /Name/", some "2 DATE 15 Jan 1980", 0⟩ : ScanState)
     "1 NAME John /Smith/" (by decide),
   claim_C6_last_write_wins.2.2.1
     (⟨none, some "1 NAME Old /Name/", some "2 DATE 15 Jan 1980", 0⟩ : ScanState)
     "1 NAME John /Smith/" "2 FILE http://example.com/a.jpg" "2 DATE 15 Jan 1980"
     "1980-01-15_john_smith" (by decide) (by decide) rfl (by decide)⟩

/-- C7: `main` returns exit code 0 on normal completion (the scan's download
outcomes cannot influence it), and exit code 1 when the file does not exist
or is not readable; in the failing cases the error is reported and the
returned effect trace is empty: no line is ever parsed. -/
theorem claim_C7_exit_codes :
    (∀ (fs : FileSystem) (p : String) (lines : List String),
        fs.pathExists = true → fs.pathReadable = true → (main fs p lines).1 = 0)
    ∧ (∀ (fs : FileSystem) (p : String) (lines : List String),
        fs.pathExists = false →
        main fs p lines = (1, ["Error: File '" ++ p ++ "' does not exist."], []))
    ∧ (∀ (fs : FileSystem) (p : String) (lines : List String),
        fs.pathExists = true → fs.pathReadable = false →
        main fs p lines = (1, ["Error: File '" ++ p ++ "' is not readable."], [])) := by
  refine ⟨?_, ?_, ?_⟩ <;> intro fs p lines
  · intro h1 h2
    obtain ⟨e, r⟩ := fs
    cases h1; cases h2
    rfl
  · intro h1
    obtain ⟨e, r⟩ := fs
    cases h1
    rfl
  · intro h1 h2
    obtain ⟨e, r⟩ := fs
    cases h1; cases h2
    rfl

/-- Witness for C7: concrete file systems produce exit codes 0 and 1. -/
theorem claim_C7_witness :
    (main ⟨true, true⟩ "f.ged" ["1 NAME John /Smith/"]).1 = 0
    ∧ main ⟨false, true⟩ "f.ged" ["1 NAME John /Smith/"]
        = (1, ["Error: File '" ++ "f.ged" ++ "' does not exist."], [])
    ∧ main ⟨true, false⟩ "f.ged" ["1 NAME John /Smith/"]
        = (1, ["Error: File '" ++ "f.ged" ++ "' is not readable."], []) :=
  ⟨claim_C7_exit_codes.1 ⟨true, true⟩ "f.ged" ["1 NAME John /Smith/"] rfl rfl,
   claim_C7_exit_codes.2.1 ⟨false, true⟩ "f.ged" ["1 NAME John /Smith/"] rfl,
   claim_C7_exit_codes.2.2 ⟨true, false⟩ "f.ged" ["1 NAME John /Smith/"] rfl rfl⟩

/-- C8: the date part of the identifier is `YYYY-MM-DD` with month and day
zero-padded to two digits, the day taken as a plain integer with no calendar
validation against the month: day 31 with month `Feb` yields an identifier
containing `-02-31`. -/
theorem claim_C8_no_calendar_validation (given surname d mon y : String) (m : Nat)
    (hg : ∀ c ∈ given.data, c ≠ '/' ∧ c ≠ '\n')
    (hs : ∀ c ∈ surname.data, c ≠ '/' ∧ c ≠ '\n')
    (hd : d.data ≠ []) (hd2 : ∀ c ∈ d.data, c.isDigit = true)
    (hm : mon.data ≠ []) (hm2 : ∀ c ∈ mon.data, isWordChar c = true)
    (hy : y.data ≠ []) (hy2 : ∀ c ∈ y.data, c.isDigit = true)
    (hmon : strptimeMonth mon = some m) :
    (∃ np, create_person_id ("1 NAME " ++ given ++ " /" ++ surname ++ "/")
        ("2 DATE " ++ d ++ " " ++ mon ++ " " ++ y)
      = some (y ++ "-" ++ format02d m ++ "-" ++ format02d (natOfDigits d.data) ++ "_" ++ np))
    ∧ create_person_id "1 NAME John /Smith/" "2 DATE 31 Feb 1980"
        = some "1980-02-31_john_smith" :=
  ⟨⟨_, create_person_id_eq given surname d mon y m hg hs hd hd2 hm hm2 hy hy2 hmon⟩,
   by decide⟩

/-- Witness for C8: day 31 in February is accepted unchanged. -/
theorem claim_C8_witness :
    ∃ np, create_person_id ("1 NAME " ++ "John" ++ " /" ++ "Smith" ++ "/")
        ("2 DATE " ++ "31" ++ " " ++ "Feb" ++ " " ++ "1980")
      = some ("1980" ++ "-" ++ format02d 2 ++ "-" ++ format02d (natOfDigits ("31").data)
              ++ "_" ++ np) :=
  (claim_C8_no_calendar_validation "John" "Smith" "31" "Feb" "1980" 2
    (by decide) (by decide) (by decide) (by decide) (by decide) (by decide)
    (by decide) (by decide) (by decide)).1

/-- C9: name, date and photo lines occurring before any person-boundary line
are stored and processed exactly as inside a record: an input with no
boundary line at all still derives the identifier and attempts the
download. -/
theorem claim_C9_no_boundary_needed :
    (["1 NAME John /Smith/", "2 DATE 15 Jan 1980",
      "2 FILE http://example.com/a.jpg"].all
        (fun l => !(isBoundary (pyStrip l))) = true)
    ∧ downloadsOf (process_gedcom_file
        ["1 NAME John /Smith/", "2 DATE 15 Jan 1980",
         "2 FILE http://example.com/a.jpg"]).2
      = [("http://example.com/a.jpg", "./photos/1980-01-15_john_smith_01.jpg")] := by
  exact ⟨by decide, by decide⟩

/-- C10: the per-person counter increments exactly when an identifier is
derived for a `2 FILE` line: not when name or date is missing, not when
`create_person_id` fails, and it does increment regardless of the download's
outcome — with a network that always fails, the first photo still consumes
number 01 and the second gets 02. -/
theorem claim_C10_counter_increment :
    (∀ (st : ScanState) (line nm bd pid : String),
        strStartsWith (pyStrip line) "2 FILE " = true →
        st.current_name = some nm → st.current_birth_date = some bd →
        create_person_id nm bd = some pid →
        (processLine st line).1.photo_count = st.photo_count + 1)
    ∧ (∀ (st : ScanState) (line : String),
        strStartsWith (pyStrip line) "2 FILE " = true →
        (st.current_name = none ∨ st.current_birth_date = none) →
        (processLine st line).1.photo_count = st.photo_count)
    ∧ (∀ (st : ScanState) (line nm bd : String),
        strStartsWith (pyStrip line) "2 FILE " = true →
        st.current_name = some nm → st.current_birth_date = some bd →
        create_person_id nm bd = none →
        (processLine st line).1.photo_count = st.photo_count)
    ∧ runEffs (fun _ _ => .error "fail")
        (process_gedcom_file
          ["0 @I1@ INDI", "1 NAME John /Smith/", "2 DATE 15 Jan 1980",
           "2 FILE http://example.com/a.jpg", "2 FILE http://example.com/b.jpg"]).2
      = ["Downloading http://example.com/a.jpg to ./photos/1980-01-15_john_smith_01.jpg",
         "Error downloading http://example.com/a.jpg: fail",
         "Downloading http://example.com/b.jpg to ./photos/1980-01-15_john_smith_02.jpg",
         "Error downloading http://example.com/b.jpg: fail"] := by
  refine ⟨?_, ?_, ?_, by decide⟩
  · intro st line nm bd pid h hn hb hid
    rw [processLine_file_success st line nm bd pid h hn hb hid]
  · intro st line h hmiss
    rw [processLine_file_missing st line h hmiss]
  · intro st line nm bd h hn hb hid
    rw [processLine_file_noid st line nm bd h hn hb hid]

/-- Witness for C10: the counter increments on a successful derivation and
stays put when the name is missing or the stored lines are unparsable. -/
theorem claim_C10_witness :
    (processLine (⟨none, some "1 NAME John /Smith/", some "2 DATE 15 Jan 1980", 3⟩ : ScanState)
        "2 FILE http://example.com/a.jpg").1.photo_count = 3 + 1
    ∧ (processLine (⟨none, none, some "2 DATE 15 Jan 1980", 3⟩ : ScanState)
        "2 FILE http://example.com/a.jpg").1.photo_count = 3
    ∧ (processLine (⟨none, some "1 NAME bad", some "2 DATE 15 Jan 1980", 3⟩ : ScanState)
        "2 FILE http://example.com/a.jpg").1.photo_count = 3 :=
  ⟨claim_C10_counter_increment.1
     (⟨none, some "1 NAME John /Smith/", some "2 DATE 15 Jan 1980", 3⟩ : ScanState)
     "2 FILE http://example.com/a.jpg" "1 NAME John /Smith/" "2 DATE 15 Jan 1980"
     "1980-01-15_john_smith" (by decide) rfl rfl (by decide),
   claim_C10_counter_increment.2.1
     (⟨none, none, some "2 DATE 15 Jan 1980", 3⟩ : ScanState)
     "2 FILE http://example.com/a.jpg" (by decide) (Or.inl rfl),
   claim_C10_counter_increment.2.2.1
     (⟨none, some "1 NAME bad", some "2 DATE 15 Jan 1980", 3⟩ : ScanState)
     "2 FILE http://example.com/a.jpg" "1 NAME bad" "2 DATE 15 Jan 1980"
     (by decide) rfl rfl (by decide)⟩

end GedcomPhotos
